import Mathlib

/-!
# Verification of the flask_chatbot query-routing logic

A shallow embedding of `app.py`: the query classifier, the follow-up
detector, conversation memory, the response generator and the `/query`
HTTP handler.  External services (the LLM client together with the
pydantic parsers, and the Azure translation backend) are modelled as
oracle functions supplied as parameters; everything else is translated
directly from the source.

Python string primitives used by the source (`str.lower`, `str.split`,
`in`, `str.title`, `str.replace`) are embedded for the ASCII fragment
the application exercises.
-/

namespace FlaskChatbot

/-- Embedding of Python `str.lower` on one ASCII character. -/
def lowerChar (c : Char) : Char :=
  if 65 ≤ c.toNat ∧ c.toNat ≤ 90 then Char.ofNat (c.toNat + 32) else c

/-- Embedding of Python `str.lower` (ASCII fragment). -/
def pyLower (s : String) : String := ⟨s.data.map lowerChar⟩

/-- Python whitespace test (ASCII fragment: space, tab, CR, LF). -/
def isWs (c : Char) : Bool :=
  c.toNat = 32 || c.toNat = 9 || c.toNat = 13 || c.toNat = 10

/-- Worker for `pySplit`: accumulates the current (reversed) word. -/
def pySplitGo (cur : List Char) : List Char → List (List Char)
  | [] => if cur = [] then [] else [cur.reverse]
  | c :: cs =>
    if isWs c then
      (if cur = [] then pySplitGo [] cs else cur.reverse :: pySplitGo [] cs)
    else
      pySplitGo (c :: cur) cs

/-- Embedding of Python `str.split()` with no arguments: split on runs of
whitespace, discarding empty tokens. -/
def pySplit (s : String) : List String :=
  (pySplitGo [] s.data).map (fun l => ⟨l⟩)

/-- Does `needle` occur as a contiguous run inside `hay`? -/
def isInfixOfChars (needle : List Char) : List Char → Bool
  | [] => needle.isPrefixOf []
  | c :: cs => needle.isPrefixOf (c :: cs) || isInfixOfChars needle cs

/-- Embedding of Python `needle in hay` substring containment. -/
def containsStr (hay needle : String) : Bool :=
  isInfixOfChars needle.data hay.data

/-- Embedding of Python `str.replace('_', ' ')`. -/
def pyReplaceUnderscore (s : String) : String :=
  ⟨s.data.map (fun c => if c = '_' then ' ' else c)⟩

/-- Embedding of Python `str.upper` on one ASCII character. -/
def upperChar (c : Char) : Char :=
  if 97 ≤ c.toNat ∧ c.toNat ≤ 122 then Char.ofNat (c.toNat - 32) else c

/-- Worker for `pyTitle`: the flag records whether the previous character
was alphabetic. -/
def pyTitleGo : Bool → List Char → List Char
  | _, [] => []
  | prevAlpha, c :: cs =>
    (if c.isAlpha then (if prevAlpha then lowerChar c else upperChar c) else c)
      :: pyTitleGo c.isAlpha cs

/-- Embedding of Python `str.title` (ASCII fragment). -/
def pyTitle (s : String) : String := ⟨pyTitleGo false s.data⟩

/-! ## Data model -/

/-- The role of one message in a `ChatMessageHistory` (`HumanMessage`
versus `AIMessage`). -/
inductive Role where
  | user : Role
  | assistant : Role
deriving DecidableEq, Repr

/-- One conversation turn: a message with its role. -/
structure Msg where
  role : Role
  content : String
deriving DecidableEq, Repr

/-- The two module-level `ChatMessageHistory` objects of `app.py`,
oldest message first. -/
structure AppState where
  thirukkural_history : List Msg
  bhagavad_gita_history : List Msg
deriving DecidableEq, Repr

/-- A JSON-like value, used for the dictionaries the handlers build
and `jsonify`.  An object is its ordered key/value list, matching
Python dict insertion order. -/
inductive JVal where
  | str : String → JVal
  | bool : Bool → JVal
  | arr : List JVal → JVal
  | obj : List (String × JVal) → JVal

/-- Field lookup in a JSON-like object (first binding wins, as in a
Python dict where keys are unique). -/
def getField (fields : List (String × JVal)) (k : String) : Option JVal :=
  (fields.find? (fun kv => kv.1 = k)).map (fun kv => kv.2)

/-- The parsed LLM output for the Thirukkural schema
(`ThirukkuralResponse` in `app.py`). -/
structure ThirukkuralResponse where
  verse : String
  translation : String
  sectionName : String
  explanation : String
  story : String
deriving DecidableEq, Repr

/-- The parsed LLM output for the Bhagavad Gita schema
(`BhagavadGitaResponse` in `app.py`). -/
structure BhagavadGitaResponse where
  verse : String
  translation : String
  chapter : String
  explanation : String
  story : String
deriving DecidableEq, Repr

/-- The external services `app.py` calls, as oracles: `invoke` is
`genai_client.invoke` (prompt to raw reply text, or an exception
message), the two parse functions are the pydantic output parsers, and
`translate` is `translate_text` (text and target language to translated
text, or an exception message).  The format-instruction strings are the
library-generated `get_format_instructions()` outputs. -/
structure Oracles where
  invoke : String → Except String String
  parseThirukkural : String → Except String ThirukkuralResponse
  parseGita : String → Except String BhagavadGitaResponse
  translate : String → String → Except String String
  thirukkural_format_instructions : String
  gita_format_instructions : String

/-! ## Conversation memory -/

/-- The label used when formatting a message:
`'User' if isinstance(msg, HumanMessage) else 'Assistant'`. -/
def roleLabel : Role → String
  | Role.user => "User"
  | Role.assistant => "Assistant"

/-- The slice `history.messages[-max_messages:]`.  Python's `-0` is `0`,
so `max_messages = 0` yields the whole list; otherwise the last
`max_messages` entries. -/
def recentMessages (history : List Msg) (max_messages : Nat) : List Msg :=
  if max_messages = 0 then history
  else history.drop (history.length - max_messages)

/-- `format_chat_history` from `app.py`: the last `max_messages` turns,
each rendered `"<Role>: <text>"`, joined by newlines. -/
def format_chat_history (history : List Msg) (max_messages : Nat := 10) : String :=
  String.intercalate "\n"
    ((recentMessages history max_messages).map
      (fun msg => roleLabel msg.role ++ ": " ++ msg.content))

/-- `history.messages[-2].content if len(history.messages) >= 2 else ""`,
the base text for a follow-up rewrite. -/
def secondToLastContent (history : List Msg) : String :=
  if 2 ≤ history.length then
    match history.drop (history.length - 2) with
    | m :: _ => m.content
    | [] => ""
  else ""

/-! ## Classifier and follow-up detector -/

/-- Keywords routing a query to the Thirukkural domain. -/
def thirukkural_keywords : List String :=
  ["thirukkural", "kural", "tamil", "aram", "porul", "inbam"]

/-- Keywords routing a query to the Bhagavad Gita domain. -/
def gita_keywords : List String :=
  ["bhagavad gita", "gita", "krishna", "arjuna", "yoga", "dharma"]

/-- `determine_text_type` from `app.py`: lower-case the query, check the
Thirukkural keywords first, then the Gita keywords, defaulting to
`"thirukkural"`. -/
def determine_text_type (query : String) : String :=
  let query_lower := pyLower query
  if thirukkural_keywords.any (fun k => containsStr query_lower k) then
    "thirukkural"
  else if gita_keywords.any (fun k => containsStr query_lower k) then
    "bhagavad_gita"
  else
    "thirukkural"

/-- The referential/domain keywords of the follow-up detector. -/
def follow_up_keywords : List String :=
  ["thirukkural", "kural", "bhagavad gita", "gita", "similar", "same"]

/-- `is_follow_up_query` from `app.py`: short query (at most 5
whitespace-separated words) containing one of the fixed keywords. -/
def is_follow_up_query (query : String) : Bool :=
  let query_lower := pyLower query
  decide ((pySplit query_lower).length ≤ 5) &&
    follow_up_keywords.any (fun k => containsStr query_lower k)

/-! ## Response generator -/

/-- `thirukkural_template` from `app.py`, with `query`, `chat_history`
and `format_instructions` substituted. -/
def thirukkural_template (query chat_history format_instructions : String) : String :=
  "\nYou are a Thirukkural expert. Find the most relevant Thirukkural based on the user\x27s query and the conversation context.\n\nThe user is asking about: "
    ++ query
    ++ "\n\nPrevious conversation context: \n"
    ++ chat_history
    ++ "\n\nIMPORTANT INSTRUCTIONS:\n1. Based on the query and previous conversation, find a Thirukkural that best matches the user\x27s intent.\n2. If the user\x27s query seems to build on previous questions, provide a Thirukkural that relates to both the current query AND previous conversation.\n3. If the user asks for \"another one\" or \"similar\" or uses other referential language, understand they want a different Thirukkural on the same topic discussed previously.\n4. Create a short engaging story (200-300 words) that illustrates the moral or lesson of this Thirukkural in a modern context.\n\nReturn your response in the following JSON format:\n"
    ++ format_instructions
    ++ "\n"

/-- `bhagavad_gita_template` from `app.py`, with `query`, `chat_history`
and `format_instructions` substituted. -/
def bhagavad_gita_template (query chat_history format_instructions : String) : String :=
  "\nYou are a Bhagavad Gita expert. Find the most relevant verse from the Bhagavad Gita based on the user\x27s query and the conversation context.\n\nThe user is asking about: "
    ++ query
    ++ "\n\nPrevious conversation context: \n"
    ++ chat_history
    ++ "\n\nIMPORTANT INSTRUCTIONS:\n1. Based on the query and previous conversation, find a verse from the Bhagavad Gita that best matches the user\x27s intent.\n2. If the user\x27s query seems to build on previous questions, provide a verse that relates to both the current query AND previous conversation.\n3. If the user asks for \"another one\" or \"similar\" or uses other referential language, understand they want a different verse on the same topic discussed previously.\n4. Create a short engaging story (200-300 words) that illustrates the message or lesson of this verse in a modern context.\n\nReturn your response in the following JSON format:\n"
    ++ format_instructions
    ++ "\n"

/-- The prompt `generate_response` sends in the Thirukkural branch. -/
def thirukkural_prompt_text (o : Oracles) (query : String) (st : AppState) : String :=
  thirukkural_template query (format_chat_history st.thirukkural_history)
    o.thirukkural_format_instructions

/-- The prompt `generate_response` sends in the Bhagavad Gita branch. -/
def gita_prompt_text (o : Oracles) (query : String) (st : AppState) : String :=
  bhagavad_gita_template query (format_chat_history st.bhagavad_gita_history)
    o.gita_format_instructions

/-- `genai_client.invoke` followed by `thirukkural_parser.parse`; an
exception from either step propagates. -/
def run_llm_thirukkural (o : Oracles) (prompt : String) : Except String ThirukkuralResponse :=
  match o.invoke prompt with
  | Except.error e => Except.error e
  | Except.ok content => o.parseThirukkural content

/-- `genai_client.invoke` followed by `gita_parser.parse`; an exception
from either step propagates. -/
def run_llm_gita (o : Oracles) (prompt : String) : Except String BhagavadGitaResponse :=
  match o.invoke prompt with
  | Except.error e => Except.error e
  | Except.ok content => o.parseGita content

/-- The fixed list of target locales for the translation relay. -/
def languages : List String :=
  ["ta", "hi", "ml", "te", "bn", "gu", "kn", "mr", "pa", "ur"]

/-- The per-locale sentinel written when a translation call raises. -/
def failed_entry : List (String × JVal) :=
  [("translation", JVal.str "Translation failed."),
   ("explanation", JVal.str "Translation failed."),
   ("story", JVal.str "Translation failed.")]

/-- One iteration of the translation loop: three sequential
`translate_text` calls inside one `try`; the first failure aborts the
remaining calls of this locale and yields the sentinel entry.  Also
returns how many backend calls were attempted. -/
def translate_entry (o : Oracles) (tr expl story lang : String) :
    List (String × JVal) × Nat :=
  match o.translate tr lang with
  | Except.error _ => (failed_entry, 1)
  | Except.ok t1 =>
    match o.translate expl lang with
    | Except.error _ => (failed_entry, 2)
    | Except.ok t2 =>
      match o.translate story lang with
      | Except.error _ => (failed_entry, 3)
      | Except.ok t3 =>
        ([("translation", JVal.str t1), ("explanation", JVal.str t2),
          ("story", JVal.str t3)], 3)

/-- The `translations` dict built by the loop over `languages`, with the
total number of attempted backend calls. -/
def build_translations (o : Oracles) (tr expl story : String) :
    List (String × JVal) × Nat :=
  (languages.map (fun lang => (lang, JVal.obj (translate_entry o tr expl story lang).1)),
   (languages.map (fun lang => (translate_entry o tr expl story lang).2)).sum)

/-- `parsed_response.dict()` for the Thirukkural schema, in field order. -/
def thirukkural_dict (p : ThirukkuralResponse) : List (String × JVal) :=
  [("verse", JVal.str p.verse), ("translation", JVal.str p.translation),
   ("section", JVal.str p.sectionName), ("explanation", JVal.str p.explanation),
   ("story", JVal.str p.story)]

/-- `parsed_response.dict()` for the Bhagavad Gita schema, in field order. -/
def gita_dict (p : BhagavadGitaResponse) : List (String × JVal) :=
  [("verse", JVal.str p.verse), ("translation", JVal.str p.translation),
   ("chapter", JVal.str p.chapter), ("explanation", JVal.str p.explanation),
   ("story", JVal.str p.story)]

/-- The sentinel dict returned by `generate_response`'s `except` block. -/
def error_payload (e : String) : List (String × JVal) :=
  [("verse", JVal.str "Error"), ("translation", JVal.str "Error"),
   ("section", JVal.str "Error"),
   ("explanation", JVal.str ("An error occurred: " ++ e)),
   ("story", JVal.str "Unable to generate a story at this time."),
   ("translations", JVal.obj [])]

/-- What `generate_response` produces: the response dict, the two
conversation logs afterwards, and how many LLM and translation backend
calls were attempted. -/
structure GenOutcome where
  payload : List (String × JVal)
  state : AppState
  llmCalls : Nat
  translateCalls : Nat

/-- `generate_response` from `app.py`.  The `try` block formats the
history, invokes the LLM, parses, appends the user query and the
one-line summary to the matching log, then runs the translation loop;
any invoke/parse exception lands in the `except` block, which returns
the sentinel dict with the logs untouched. -/
def generate_response (o : Oracles) (query text_type : String) (st : AppState) :
    GenOutcome :=
  if text_type = "thirukkural" then
    match run_llm_thirukkural o (thirukkural_prompt_text o query st) with
    | Except.error e => ⟨error_payload e, st, 1, 0⟩
    | Except.ok parsed =>
      let result_summary :=
        "Thirukkural about " ++ pyLower parsed.sectionName ++
          " - Translation: " ++ parsed.translation
      let st' : AppState :=
        { st with thirukkural_history :=
            st.thirukkural_history ++
              [⟨Role.user, query⟩, ⟨Role.assistant, result_summary⟩] }
      let tr := build_translations o parsed.translation parsed.explanation parsed.story
      ⟨thirukkural_dict parsed ++ [("translations", JVal.obj tr.1)], st', 1, tr.2⟩
  else
    match run_llm_gita o (gita_prompt_text o query st) with
    | Except.error e => ⟨error_payload e, st, 1, 0⟩
    | Except.ok parsed =>
      let result_summary :=
        "Bhagavad Gita " ++ parsed.chapter ++ " - Translation: " ++ parsed.translation
      let st' : AppState :=
        { st with bhagavad_gita_history :=
            st.bhagavad_gita_history ++
              [⟨Role.user, query⟩, ⟨Role.assistant, result_summary⟩] }
      let tr := build_translations o parsed.translation parsed.explanation parsed.story
      ⟨gita_dict parsed ++ [("translations", JVal.obj tr.1)], st', 1, tr.2⟩

/-! ## HTTP surface: the `/query` handler -/

/-- The greeting strings short-circuited by `handle_query`. -/
def greetings : List String := ["hi", "hello", "hey", "hi there", "hello there"]

/-- The fixed payload returned for a greeting query. -/
def greeting_payload : List (String × JVal) :=
  [("verse", JVal.str "Greeting"),
   ("translation", JVal.str "Hello! I\x27m a sacred text chatbot. How can I assist you today?"),
   ("section", JVal.str "Greeting"),
   ("explanation", JVal.str "This is a friendly greeting to start the conversation."),
   ("story", JVal.str "No story here, just a warm welcome!"),
   ("languages", JVal.arr (languages.map JVal.str)),
   ("ready_for_translation", JVal.bool true)]

/-- What a request handler produces: HTTP status, JSON body, the logs
afterwards, and the number of backend calls attempted. -/
structure HandlerOutcome where
  status : Nat
  body : List (String × JVal)
  state : AppState
  llmCalls : Nat
  translateCalls : Nat

/-- The follow-up rewrite block of `handle_query` (the body of
`if is_follow_up_query(query):`): picks the domain from the
thirukkural/kural check, reads the *other* domain's second-to-last
message, and rewrites the query as
`f"{last_query} (in {text_type.replace('_', ' ').title()})"`.
Returns the new `(text_type, query)` pair. -/
def followUpRewrite (st : AppState) (query : String) : String × String :=
  if containsStr (pyLower query) "thirukkural" || containsStr (pyLower query) "kural" then
    let last_query := secondToLastContent st.bhagavad_gita_history
    ("thirukkural",
      last_query ++ " (in " ++ pyTitle (pyReplaceUnderscore "thirukkural") ++ ")")
  else
    let last_query := secondToLastContent st.thirukkural_history
    ("bhagavad_gita",
      last_query ++ " (in " ++ pyTitle (pyReplaceUnderscore "bhagavad_gita") ++ ")")

/-- `handle_query` from `app.py`.  The request body's `query` field is
an `Option String` (`data.get("query")`); Python's `if not query:`
rejects both a missing field and an empty string. -/
def handle_query (o : Oracles) (body_query : Option String) (st : AppState) :
    HandlerOutcome :=
  match body_query with
  | none => ⟨400, [("error", JVal.str "Query is required")], st, 0, 0⟩
  | some query =>
    if query = "" then
      ⟨400, [("error", JVal.str "Query is required")], st, 0, 0⟩
    else if greetings.contains (pyLower query) then
      ⟨200, greeting_payload, st, 0, 0⟩
    else
      let text_type := determine_text_type query
      let tq : String × String :=
        if is_follow_up_query query then followUpRewrite st query
        else (text_type, query)
      let g := generate_response o tq.2 tq.1 st
      ⟨200,
        g.payload ++
          [("languages", JVal.arr (languages.map JVal.str)),
           ("ready_for_translation", JVal.bool true)],
        g.state, g.llmCalls, g.translateCalls⟩

/-! ## Concrete states and oracles used to instantiate the theorems -/

/-- Both conversation logs empty, the state at process start. -/
def emptyState : AppState := ⟨[], []⟩

/-- A state whose Bhagavad Gita log holds one completed exchange. -/
def gitaTalkedState : AppState :=
  ⟨[], [⟨Role.user, "about karma"⟩,
        ⟨Role.assistant, "Bhagavad Gita 2.47 - Translation: x"⟩]⟩

/-- A state where both logs are nonempty. -/
def busyState : AppState :=
  ⟨[⟨Role.user, "q1"⟩], [⟨Role.user, "q2"⟩]⟩

/-- Backends where the LLM invocation itself raises. -/
def errOracle : Oracles :=
  ⟨fun _ => Except.error "boom",
   fun _ => Except.error "parse error",
   fun _ => Except.error "parse error",
   fun _ _ => Except.error "no translator",
   "FI-T", "FI-G"⟩

/-- Backends where generation succeeds and translation fails exactly for
the locale `"ur"`. -/
def urFailOracle : Oracles :=
  ⟨fun _ => Except.ok "RAW",
   fun _ => Except.ok ⟨"V", "T", "Aram", "E", "S"⟩,
   fun _ => Except.ok ⟨"V", "T", "2.47", "E", "S"⟩,
   fun text lang =>
     if lang = "ur" then Except.error "ur down"
     else Except.ok (text ++ "/" ++ lang),
   "FI-T", "FI-G"⟩

/-! ## Helper lemmas -/

/-- Evaluation of `Char.ofNat` below the surrogate range. -/
theorem toNat_charOfNat (n : Nat) (h : n < 55296) : (Char.ofNat n).toNat = n := by
  have hv : n.isValidChar := Or.inl h
  simp only [Char.ofNat, dif_pos hv, Char.ofNatAux, Char.toNat]
  simp [BitVec.ofNatLt, UInt32.toNat]

/-- Lower-casing a character does not change whether it is whitespace. -/
theorem isWs_lowerChar (c : Char) : isWs (lowerChar c) = isWs c := by
  unfold lowerChar
  by_cases h : 65 ≤ c.toNat ∧ c.toNat ≤ 90
  · rw [if_pos h]
    have hv : (Char.ofNat (c.toNat + 32)).toNat = c.toNat + 32 :=
      toNat_charOfNat _ (by omega)
    have hL : isWs (Char.ofNat (c.toNat + 32)) = false := by
      simp [isWs, hv]; omega
    have hR : isWs c = false := by
      simp [isWs]; omega
    rw [hL, hR]
  · rw [if_neg h]

/-- Lower-casing the input of the splitter preserves the word count. -/
theorem pySplitGo_map_lower_length (cs cur : List Char) :
    (pySplitGo (cur.map lowerChar) (cs.map lowerChar)).length =
      (pySplitGo cur cs).length := by
  induction cs generalizing cur with
  | nil =>
    simp only [List.map_nil, pySplitGo]
    by_cases h : cur = []
    · simp [h]
    · rw [if_neg (by simpa using h), if_neg h]; simp
  | cons c cs ih =>
    simp only [List.map_cons, pySplitGo, isWs_lowerChar]
    by_cases hw : isWs c
    · simp only [if_pos hw]
      by_cases h : cur = []
      · rw [if_pos (by simp [h]), if_pos h]
        exact ih []
      · rw [if_neg (by simpa using h), if_neg h]
        simp only [List.length_cons]
        have := ih []
        simpa using this
    · simp only [if_neg hw]
      have := ih (c :: cur)
      simpa using this

/-- Python's `str.lower` preserves the whitespace-tokenized word count. -/
theorem pySplit_pyLower_length (s : String) :
    (pySplit (pyLower s)).length = (pySplit s).length := by
  simp only [pySplit, pyLower, List.length_map]
  exact pySplitGo_map_lower_length s.data []

/-- The second-to-last message of a log with at least two messages. -/
theorem secondToLastContent_append (pre : List Msg) (m l : Msg) :
    secondToLastContent (pre ++ [m, l]) = m.content := by
  unfold secondToLastContent
  have hlen : (pre ++ [m, l]).length = pre.length + 2 := by simp
  rw [if_pos (by omega)]
  have hdrop : (pre ++ [m, l]).drop ((pre ++ [m, l]).length - 2) = [m, l] := by
    rw [hlen]
    have h2 : pre.length + 2 - 2 = pre.length := by omega
    rw [h2]
    exact List.drop_left pre [m, l]
  rw [hdrop]

/-- On a log with fewer than two messages the rewrite base is empty. -/
theorem secondToLastContent_short (h : List Msg) (hl : h.length < 2) :
    secondToLastContent h = "" := by
  unfold secondToLastContent
  rw [if_neg (by omega)]

/-- Appending the computed title suffix for the Thirukkural domain. -/
theorem title_suffix_thirukkural (s : String) :
    s ++ " (in " ++ pyTitle (pyReplaceUnderscore "thirukkural") ++ ")" =
      s ++ " (in Thirukkural)" := by
  have h : pyTitle (pyReplaceUnderscore "thirukkural") = "Thirukkural" := by decide
  rw [h, String.append_assoc, String.append_assoc]
  congr 1

/-- Appending the computed title suffix for the Bhagavad Gita domain. -/
theorem title_suffix_gita (s : String) :
    s ++ " (in " ++ pyTitle (pyReplaceUnderscore "bhagavad_gita") ++ ")" =
      s ++ " (in Bhagavad Gita)" := by
  have h : pyTitle (pyReplaceUnderscore "bhagavad_gita") = "Bhagavad Gita" := by decide
  rw [h, String.append_assoc, String.append_assoc]
  congr 1

/-! ## Claim theorems -/

/-- Claim C1: for every query classified as a follow-up, the rewrite
block reads the *other* domain's history.  If the lower-cased query
contains "thirukkural" or "kural" the domain becomes `"thirukkural"`
and the rewritten query is the content of the Bhagavad Gita log's
second-to-last message followed by `" (in Thirukkural)"` (the empty
string when that log has fewer than two messages); otherwise the
domain becomes `"bhagavad_gita"` and the base text is the Thirukkural
log's second-to-last message followed by `" (in Bhagavad Gita)"`. -/
theorem C1_follow_up_rewrite (st : AppState) (q : String)
    (_hfu : is_follow_up_query q = true) :
    ((containsStr (pyLower q) "thirukkural" || containsStr (pyLower q) "kural") = true →
      (∀ pre m l, st.bhagavad_gita_history = pre ++ [m, l] →
        followUpRewrite st q = ("thirukkural", m.content ++ " (in Thirukkural)"))
      ∧ (st.bhagavad_gita_history.length < 2 →
        followUpRewrite st q = ("thirukkural", " (in Thirukkural)")))
    ∧ ((containsStr (pyLower q) "thirukkural" || containsStr (pyLower q) "kural") = false →
      (∀ pre m l, st.thirukkural_history = pre ++ [m, l] →
        followUpRewrite st q = ("bhagavad_gita", m.content ++ " (in Bhagavad Gita)"))
      ∧ (st.thirukkural_history.length < 2 →
        followUpRewrite st q = ("bhagavad_gita", " (in Bhagavad Gita)"))) := by
  constructor
  · intro hk
    constructor
    · intro pre m l hdecomp
      simp only [followUpRewrite, hk, if_true]
      rw [hdecomp, secondToLastContent_append, title_suffix_thirukkural]
    · intro hshort
      simp only [followUpRewrite, hk, if_true]
      rw [secondToLastContent_short _ hshort]
      congr 1
  · intro hk
    constructor
    · intro pre m l hdecomp
      simp only [followUpRewrite, hk, Bool.false_eq_true, if_false]
      rw [hdecomp, secondToLastContent_append, title_suffix_gita]
    · intro hshort
      simp only [followUpRewrite, hk, Bool.false_eq_true, if_false]
      rw [secondToLastContent_short _ hshort]
      congr 1

/-- Witness for C1: the query "kural" after one Bhagavad Gita exchange
is rewritten to the recorded user query plus " (in Thirukkural)". -/
theorem C1_witness :
    followUpRewrite gitaTalkedState "kural" =
      ("thirukkural", "about karma (in Thirukkural)") :=
  ((C1_follow_up_rewrite gitaTalkedState "kural" (by decide)).1 (by decide)).1
    [] ⟨Role.user, "about karma"⟩
    ⟨Role.assistant, "Bhagavad Gita 2.47 - Translation: x"⟩ rfl

/-- Claim C2: the follow-up detector returns true iff the
whitespace-tokenized word count of the query is at most 5 and the
lower-cased query contains one of the six fixed keywords; concretely,
"similar please" is a follow-up and "tell me about dharma and karma in
detail please now" is not. -/
theorem C2_follow_up_detector :
    (∀ q : String, is_follow_up_query q = true ↔
      ((pySplit q).length ≤ 5 ∧
        ∃ k ∈ follow_up_keywords, containsStr (pyLower q) k = true))
    ∧ is_follow_up_query "similar please" = true
    ∧ is_follow_up_query "tell me about dharma and karma in detail please now" = false := by
  refine ⟨fun q => ?_, by decide, by decide⟩
  simp only [is_follow_up_query, Bool.and_eq_true, decide_eq_true_eq,
    List.any_eq_true, pySplit_pyLower_length]

/-- Witness for C2: the iff applied at the concrete query
"similar please". -/
theorem C2_witness : is_follow_up_query "similar please" = true :=
  (C2_follow_up_detector.1 "similar please").mpr ⟨by decide, by decide⟩

/-- Claim C3: the classifier returns `"thirukkural"` whenever a
Thirukkural keyword occurs in the lower-cased query (even when a Gita
keyword also occurs), `"bhagavad_gita"` when no Thirukkural keyword but
some Gita keyword occurs, `"thirukkural"` when neither occurs, and it
always returns one of the two domains. -/
theorem C3_classifier (q : String) :
    (determine_text_type q = "thirukkural" ∨ determine_text_type q = "bhagavad_gita")
    ∧ ((∃ k ∈ thirukkural_keywords, containsStr (pyLower q) k = true) →
        determine_text_type q = "thirukkural")
    ∧ ((¬ ∃ k ∈ thirukkural_keywords, containsStr (pyLower q) k = true) →
        (∃ k ∈ gita_keywords, containsStr (pyLower q) k = true) →
        determine_text_type q = "bhagavad_gita")
    ∧ ((¬ ∃ k ∈ thirukkural_keywords, containsStr (pyLower q) k = true) →
        (¬ ∃ k ∈ gita_keywords, containsStr (pyLower q) k = true) →
        determine_text_type q = "thirukkural") := by
  by_cases hT : ∃ k ∈ thirukkural_keywords, containsStr (pyLower q) k = true
  · have hTb : thirukkural_keywords.any (fun k => containsStr (pyLower q) k) = true :=
      List.any_eq_true.mpr hT
    have hval : determine_text_type q = "thirukkural" := by
      simp [determine_text_type, hTb]
    exact ⟨Or.inl hval, fun _ => hval, fun hn _ => absurd hT hn, fun hn _ => absurd hT hn⟩
  · have hTb : thirukkural_keywords.any (fun k => containsStr (pyLower q) k) = false :=
      Bool.eq_false_iff.mpr (fun hc => hT (List.any_eq_true.mp hc))
    by_cases hG : ∃ k ∈ gita_keywords, containsStr (pyLower q) k = true
    · have hGb : gita_keywords.any (fun k => containsStr (pyLower q) k) = true :=
        List.any_eq_true.mpr hG
      have hval : determine_text_type q = "bhagavad_gita" := by
        simp [determine_text_type, hTb, hGb]
      exact ⟨Or.inr hval, fun hx => absurd hx hT, fun _ _ => hval, fun _ hn => absurd hG hn⟩
    · have hGb : gita_keywords.any (fun k => containsStr (pyLower q) k) = false :=
        Bool.eq_false_iff.mpr (fun hc => hG (List.any_eq_true.mp hc))
      have hval : determine_text_type q = "thirukkural" := by
        simp [determine_text_type, hTb, hGb]
      exact ⟨Or.inl hval, fun hx => absurd hx hT, fun _ hx => absurd hx hG, fun _ _ => hval⟩

/-- Witness for C3: "gita tamil" contains keywords of both domains and
is classified as Thirukkural because that keyword set is checked
first. -/
theorem C3_witness : determine_text_type "gita tamil" = "thirukkural" :=
  (C3_classifier "gita tamil").2.1 (by decide)

/-- Claim C4: whenever the LLM invocation or the schema parse of either
branch fails, `generate_response` returns the sentinel dict whose
verse, translation and section fields are the literal string "Error",
whose explanation embeds the error message, and whose translations
mapping is empty. -/
theorem C4_error_sentinel (o : Oracles) (q text_type : String) (st : AppState) (e : String) :
    (text_type = "thirukkural" →
      run_llm_thirukkural o (thirukkural_prompt_text o q st) = Except.error e →
      getField (generate_response o q text_type st).payload "verse" = some (JVal.str "Error") ∧
      getField (generate_response o q text_type st).payload "translation" = some (JVal.str "Error") ∧
      getField (generate_response o q text_type st).payload "section" = some (JVal.str "Error") ∧
      getField (generate_response o q text_type st).payload "explanation" =
        some (JVal.str ("An error occurred: " ++ e)) ∧
      getField (generate_response o q text_type st).payload "translations" =
        some (JVal.obj []))
    ∧ (text_type ≠ "thirukkural" →
      run_llm_gita o (gita_prompt_text o q st) = Except.error e →
      getField (generate_response o q text_type st).payload "verse" = some (JVal.str "Error") ∧
      getField (generate_response o q text_type st).payload "translation" = some (JVal.str "Error") ∧
      getField (generate_response o q text_type st).payload "section" = some (JVal.str "Error") ∧
      getField (generate_response o q text_type st).payload "explanation" =
        some (JVal.str ("An error occurred: " ++ e)) ∧
      getField (generate_response o q text_type st).payload "translations" =
        some (JVal.obj [])) := by
  constructor
  · intro ht hrun
    subst ht
    unfold generate_response
    rw [if_pos rfl, hrun]
    exact ⟨rfl, rfl, rfl, rfl, rfl⟩
  · intro ht hrun
    unfold generate_response
    rw [if_neg ht, hrun]
    exact ⟨rfl, rfl, rfl, rfl, rfl⟩

/-- Witness for C4: with a failing LLM backend the Gita branch yields
the sentinel payload. -/
theorem C4_witness :
    getField (generate_response errOracle "dharma" "bhagavad_gita" emptyState).payload "verse" =
      some (JVal.str "Error") ∧
    getField (generate_response errOracle "dharma" "bhagavad_gita" emptyState).payload "translation" =
      some (JVal.str "Error") ∧
    getField (generate_response errOracle "dharma" "bhagavad_gita" emptyState).payload "section" =
      some (JVal.str "Error") ∧
    getField (generate_response errOracle "dharma" "bhagavad_gita" emptyState).payload "explanation" =
      some (JVal.str ("An error occurred: " ++ "boom")) ∧
    getField (generate_response errOracle "dharma" "bhagavad_gita" emptyState).payload "translations" =
      some (JVal.obj []) :=
  (C4_error_sentinel errOracle "dharma" "bhagavad_gita" emptyState "boom").2 (by decide) rfl

/-- Claim C5: on a successful generation with a translation backend
that fails exactly for the locale "ur", the translations mapping has an
entry for each of the ten fixed locales, the "ur" entry is the triple
of "Translation failed." sentinels, every other locale carries the
backend's translations, and the response as a whole still succeeds
(its verse field is the parsed verse). -/
theorem C5_translation_partial_failure (o : Oracles) (q : String) (st : AppState)
    (parsed : ThirukkuralResponse) (err : String) (tf : String → String → String)
    (hrun : run_llm_thirukkural o (thirukkural_prompt_text o q st) = Except.ok parsed)
    (htr : ∀ text lang, o.translate text lang =
      if lang = "ur" then Except.error err else Except.ok (tf text lang)) :
    getField (generate_response o q "thirukkural" st).payload "translations" =
      some (JVal.obj (languages.map (fun lang =>
        (lang,
          if lang = "ur" then JVal.obj failed_entry
          else JVal.obj
            [("translation", JVal.str (tf parsed.translation lang)),
             ("explanation", JVal.str (tf parsed.explanation lang)),
             ("story", JVal.str (tf parsed.story lang))]))))
    ∧ getField (generate_response o q "thirukkural" st).payload "verse" =
        some (JVal.str parsed.verse) := by
  unfold generate_response
  rw [if_pos rfl, hrun]
  constructor
  · simp [getField, thirukkural_dict, build_translations, translate_entry, htr, languages]
  · simp [getField, thirukkural_dict]

/-- Witness for C5: the concrete backend failing only for "ur". -/
theorem C5_witness :
    getField (generate_response urFailOracle "about virtue" "thirukkural" emptyState).payload
        "translations" =
      some (JVal.obj (languages.map (fun lang =>
        (lang,
          if lang = "ur" then JVal.obj failed_entry
          else JVal.obj
            [("translation", JVal.str ("T" ++ "/" ++ lang)),
             ("explanation", JVal.str ("E" ++ "/" ++ lang)),
             ("story", JVal.str ("S" ++ "/" ++ lang))]))))
    ∧ getField (generate_response urFailOracle "about virtue" "thirukkural" emptyState).payload
        "verse" = some (JVal.str "V") :=
  C5_translation_partial_failure urFailOracle "about virtue" emptyState
    ⟨"V", "T", "Aram", "E", "S"⟩ "ur down" (fun text lang => text ++ "/" ++ lang)
    rfl (fun _ _ => rfl)

/-- Counterexample to C6 as stated: with `max_messages = 0` the Python
slice `messages[-0:]` is the whole list, so a one-message log yields
one formatted turn, not at most zero. -/
theorem C6_counterexample :
    ¬ ((recentMessages [⟨Role.user, "hello"⟩] 0).length ≤ 0) := by decide

/-- Claim C6 (amended): for every conversation log and every n ≥ 1,
`format_chat_history` with `max_messages = n` uses at most n turns,
takes them as a suffix of the log (insertion order preserved, oldest
first), and renders each turn as `"<Role>: <text>"` joined by
newlines. -/
theorem C6_amended (history : List Msg) (n : Nat) (hn : 1 ≤ n) :
    (recentMessages history n).length ≤ n ∧
    recentMessages history n <:+ history ∧
    format_chat_history history n =
      String.intercalate "\n"
        ((recentMessages history n).map
          (fun msg => roleLabel msg.role ++ ": " ++ msg.content)) := by
  refine ⟨?_, ?_, rfl⟩
  · unfold recentMessages
    rw [if_neg (by omega), List.length_drop]
    omega
  · unfold recentMessages
    rw [if_neg (by omega)]
    exact List.drop_suffix _ _

/-- Witness for the amended C6 at a two-message log and n = 1. -/
theorem C6_witness :
    (recentMessages [⟨Role.user, "a"⟩, ⟨Role.assistant, "b"⟩] 1).length ≤ 1 ∧
    recentMessages [⟨Role.user, "a"⟩, ⟨Role.assistant, "b"⟩] 1 <:+
      [⟨Role.user, "a"⟩, ⟨Role.assistant, "b"⟩] ∧
    format_chat_history [⟨Role.user, "a"⟩, ⟨Role.assistant, "b"⟩] 1 =
      String.intercalate "\n"
        ((recentMessages [⟨Role.user, "a"⟩, ⟨Role.assistant, "b"⟩] 1).map
          (fun msg => roleLabel msg.role ++ ": " ++ msg.content)) :=
  C6_amended [⟨Role.user, "a"⟩, ⟨Role.assistant, "b"⟩] 1 (by decide)

/-- Counterexample to C7 as stated: the summary appended on a concrete
successful generation is "Thirukkural about aram - Translation: T",
which is not of the form `"<Label> — Translation: <translation>"` for
any label — the code joins with a plain hyphen ("` - `"), not an em
dash ("` — `"). -/
theorem C7_counterexample :
    (generate_response urFailOracle "about virtue" "thirukkural" emptyState).state.thirukkural_history =
      [⟨Role.user, "about virtue"⟩,
       ⟨Role.assistant, "Thirukkural about aram - Translation: T"⟩]
    ∧ ¬ ∃ label : String,
        "Thirukkural about aram - Translation: T" = label ++ " — Translation: " ++ "T" := by
  constructor
  · rfl
  · rintro ⟨label, h⟩
    have hd : ("Thirukkural about aram - Translation: T").data =
        label.data ++ (" — Translation: ").data ++ ("T").data := by
      rw [h]
      simp [String.data_append]
    have hlen : label.data.length = 22 := by
      have h2 := congrArg List.length hd
      simp at h2
      exact h2
    have hdrop : ("Thirukkural about aram - Translation: T").data.drop 22 =
        (" — Translation: ").data ++ ("T").data := by
      rw [hd, List.append_assoc, ← hlen]
      exact List.drop_left _ _
    revert hdrop
    decide

/-- Claim C7 (amended): every successful generation appends exactly two
turns to the matching domain's log — the original query as the user
turn and the one-line summary `"<Label> - Translation: <translation>"`
(hyphen-minus, not an em dash) as the assistant turn — and leaves the
other domain's log unchanged. -/
theorem C7_amended_summary_appends (o : Oracles) (q : String) (st : AppState) :
    (∀ parsed : ThirukkuralResponse,
      run_llm_thirukkural o (thirukkural_prompt_text o q st) = Except.ok parsed →
      (generate_response o q "thirukkural" st).state.thirukkural_history =
        st.thirukkural_history ++
          [⟨Role.user, q⟩,
           ⟨Role.assistant,
            "Thirukkural about " ++ pyLower parsed.sectionName ++
              " - Translation: " ++ parsed.translation⟩] ∧
      (generate_response o q "thirukkural" st).state.bhagavad_gita_history =
        st.bhagavad_gita_history)
    ∧ (∀ parsed : BhagavadGitaResponse,
      run_llm_gita o (gita_prompt_text o q st) = Except.ok parsed →
      (generate_response o q "bhagavad_gita" st).state.bhagavad_gita_history =
        st.bhagavad_gita_history ++
          [⟨Role.user, q⟩,
           ⟨Role.assistant,
            "Bhagavad Gita " ++ parsed.chapter ++
              " - Translation: " ++ parsed.translation⟩] ∧
      (generate_response o q "bhagavad_gita" st).state.thirukkural_history =
        st.thirukkural_history) := by
  constructor
  · intro parsed hrun
    unfold generate_response
    rw [if_pos rfl, hrun]
    exact ⟨rfl, rfl⟩
  · intro parsed hrun
    unfold generate_response
    rw [if_neg (by decide), hrun]
    exact ⟨rfl, rfl⟩

/-- Witness for the amended C7: a concrete successful Thirukkural
generation on a nonempty state. -/
theorem C7_witness :
    (generate_response urFailOracle "about virtue" "thirukkural" busyState).state.thirukkural_history =
      busyState.thirukkural_history ++
        [⟨Role.user, "about virtue"⟩,
         ⟨Role.assistant,
          "Thirukkural about " ++ pyLower "Aram" ++ " - Translation: " ++ "T"⟩] ∧
    (generate_response urFailOracle "about virtue" "thirukkural" busyState).state.bhagavad_gita_history =
      busyState.bhagavad_gita_history :=
  (C7_amended_summary_appends urFailOracle "about virtue" busyState).1
    ⟨"V", "T", "Aram", "E", "S"⟩ rfl

/-- Claim C8: a query whose lower-casing is one of the five greeting
strings makes `/query` return the fixed greeting payload (whose verse
field is "Greeting") with the state untouched and zero LLM and
translation backend calls. -/
theorem C8_greeting_short_circuit (o : Oracles) (st : AppState) (q : String)
    (hg : greetings.contains (pyLower q) = true) :
    handle_query o (some q) st = ⟨200, greeting_payload, st, 0, 0⟩ ∧
    getField (handle_query o (some q) st).body "verse" = some (JVal.str "Greeting") := by
  have hne : ¬ (q = "") := by
    intro h
    subst h
    revert hg
    decide
  have h1 : handle_query o (some q) st = ⟨200, greeting_payload, st, 0, 0⟩ := by
    dsimp only [handle_query]
    rw [if_neg hne, if_pos hg]
  refine ⟨h1, ?_⟩
  rw [h1]
  rfl

/-- Witness for C8 at the query "Hi", with backends that would fail if
they were ever called. -/
theorem C8_witness :
    handle_query errOracle (some "Hi") emptyState = ⟨200, greeting_payload, emptyState, 0, 0⟩ ∧
    getField (handle_query errOracle (some "Hi") emptyState).body "verse" =
      some (JVal.str "Greeting") :=
  C8_greeting_short_circuit errOracle emptyState "Hi" (by decide)

/-- Claim C9: a `/query` request without a `query` field yields HTTP
400 with body `{error: "Query is required"}`, the conversation logs
unchanged and no LLM or translation backend call. -/
theorem C9_missing_query_field (o : Oracles) (st : AppState) :
    handle_query o none st =
      ⟨400, [("error", JVal.str "Query is required")], st, 0, 0⟩ := rfl

/-- Claim C10: if the LLM invocation or the schema parse fails,
`generate_response` returns the error sentinel and both conversation
logs keep exactly their prior messages (the appends happen only after a
successful parse). -/
theorem C10_logs_unchanged_on_error (o : Oracles) (q text_type : String)
    (st : AppState) (e : String) :
    (text_type = "thirukkural" →
      run_llm_thirukkural o (thirukkural_prompt_text o q st) = Except.error e →
      (generate_response o q text_type st).state = st ∧
      (generate_response o q text_type st).payload = error_payload e)
    ∧ (text_type ≠ "thirukkural" →
      run_llm_gita o (gita_prompt_text o q st) = Except.error e →
      (generate_response o q text_type st).state = st ∧
      (generate_response o q text_type st).payload = error_payload e) := by
  constructor
  · intro ht hrun
    subst ht
    unfold generate_response
    rw [if_pos rfl, hrun]
    exact ⟨rfl, rfl⟩
  · intro ht hrun
    unfold generate_response
    rw [if_neg ht, hrun]
    exact ⟨rfl, rfl⟩

/-- Witness for C10: a failing invocation on a state with nonempty logs
leaves both logs as they were. -/
theorem C10_witness :
    (generate_response errOracle "kural please" "thirukkural" busyState).state = busyState ∧
    (generate_response errOracle "kural please" "thirukkural" busyState).payload =
      error_payload "boom" :=
  (C10_logs_unchanged_on_error errOracle "kural please" "thirukkural" busyState "boom").1 rfl rfl

end FlaskChatbot
